import Mathlib

/-!
Verification of the document composition engine of the file-creator service
(`src/server.py`).  The Python source is shallowly embedded: pure fragments
become Lean functions, the worksheet is explicit state (a cell grid), machine
layout arithmetic is carried out in `ℚ`, and the filesystem registries
(logo directory, images directory) are passed in as explicit lists of names.
-/

namespace FCS

/-- Python truthiness of an optional string (`if s:`): `None` and `""` are falsy. -/
def strTruthy : Option String → Bool
  | none => false
  | some s => !s.isEmpty

/-- Python truthiness of an optional list (`if l:`): `None` and `[]` are falsy. -/
def listTruthy {α : Type _} : Option (List α) → Bool
  | none => false
  | some l => !l.isEmpty

-- ============================================================================
-- COLOR PALETTES  (server.py `COLOR_PALETTES`, lines 70-134)
-- ============================================================================

/-- A palette: the five color roles, hex triples as strings (server.py 70-134). -/
structure Palette where
  primary : String
  secondary : String
  accent : String
  text_dark : String
  text_light : String
deriving DecidableEq, Repr

/-- The `corporate_blue` entry of `COLOR_PALETTES` (server.py 127-133); it is
also the fallback default used by every composer. -/
def corporateBluePalette : Palette :=
  ⟨"003366", "0066CC", "FF9900", "003366", "FFFFFF"⟩

/-- The `COLOR_PALETTES` table (server.py 70-134), in source order. -/
def COLOR_PALETTES : List (String × Palette) :=
  [ ("midnight_executive", ⟨"1E2761", "CADCFC", "FFFFFF", "1E2761", "FFFFFF"⟩),
    ("forest_moss", ⟨"2C5F2D", "97BC62", "F5F5F5", "2C5F2D", "FFFFFF"⟩),
    ("coral_energy", ⟨"F96167", "F9E795", "2F3C7E", "2F3C7E", "FFFFFF"⟩),
    ("warm_terracotta", ⟨"B85042", "E7E8D1", "A7BEAE", "B85042", "FFFFFF"⟩),
    ("ocean_gradient", ⟨"065A82", "1C7293", "21295C", "21295C", "FFFFFF"⟩),
    ("charcoal_minimal", ⟨"36454F", "F2F2F2", "212121", "212121", "FFFFFF"⟩),
    ("teal_trust", ⟨"028090", "00A896", "02C39A", "028090", "FFFFFF"⟩),
    ("berry_cream", ⟨"6D2E46", "A26769", "ECE2D0", "6D2E46", "FFFFFF"⟩),
    ("corporate_blue", corporateBluePalette) ]

/-- First-match association lookup (Python `dict.get` on string keys). -/
def lookupPal : List (String × Palette) → String → Option Palette
  | [], _ => none
  | (k, v) :: rest, name => if k = name then some v else lookupPal rest name

/-- Palette resolution: `COLOR_PALETTES.get(name, COLOR_PALETTES["corporate_blue"])`
(server.py 291, 786). -/
def resolvePalette (name : String) : Palette :=
  (lookupPal COLOR_PALETTES name).getD corporateBluePalette

/-- All five color roles are present and non-empty. -/
def paletteComplete (p : Palette) : Prop :=
  p.primary ≠ "" ∧ p.secondary ≠ "" ∧ p.accent ≠ "" ∧
  p.text_dark ≠ "" ∧ p.text_light ≠ ""

instance (p : Palette) : Decidable (paletteComplete p) := by
  unfold paletteComplete; infer_instance

-- ============================================================================
-- LOGO LOOKUP  (server.py `get_logo_path`, lines 248-259)
-- ============================================================================

/-- The fixed, ordered extension probe list of `get_logo_path` (server.py 255). -/
def LOGO_EXTS : List String := [".png", ".jpg", ".jpeg", ".svg"]

/-- Probe `name ++ ext` against the registry for each extension in order,
returning the first hit (server.py 255-258). -/
def tryExts (registry : List String) (name : String) : List String → Option String
  | [] => none
  | e :: rest => if (name ++ e) ∈ registry then some (name ++ e) else tryExts registry name rest

/-- `get_logo_path` (server.py 248-259).  The logos directory is embedded as an
explicit registry of file names; `p.exists()` becomes membership. -/
def get_logo_path (registry : List String) (logo_name : Option String) : Option String :=
  match logo_name with
  | none => none
  | some n =>
    if n = "" then none
    else if n ∈ registry then some n
    else tryExts registry n LOGO_EXTS

-- ============================================================================
-- POWERPOINT MODEL  (server.py lines 284-536)
-- ============================================================================

/-- Paragraph alignment (`PP_ALIGN`); `none` in `Para.align` means the library
default (alignment never set). -/
inductive PAlign where
  | left
  | center
deriving DecidableEq, Repr

/-- A text paragraph with the attributes the composer sets.  Defaults model a
freshly created (untouched) paragraph. -/
structure Para where
  text : String := ""
  size : Option ℚ := none
  bold : Bool := false
  color : Option String := none
  align : Option PAlign := none
  spaceAfter : Option ℚ := none
deriving DecidableEq, Repr

/-- A freshly created text frame holds one untouched paragraph. -/
def defaultPara : Para := { text := "" }

/-- Position and size of a placed element, in inches. -/
structure Box where
  x : ℚ
  y : ℚ
  w : ℚ
  h : ℚ
deriving DecidableEq, Repr

/-- A shape added to a slide, in creation order. -/
inductive Shape where
  | rect (b : Box) (fill : String)
  | oval (b : Box) (fill : String)
  | textbox (b : Box) (paras : List Para)
  | picture (path : String) (x : ℚ) (y : ℚ) (w : ℚ)
deriving DecidableEq, Repr

/-- Slide canvas dimensions (server.py 288-289): 13.333in x 7.5in. -/
def SLIDE_W : ℚ := 13.333

def SLIDE_H : ℚ := 7.5

/-- One stat block dict: keys "value" and "label", read with `get(…, "")`. -/
structure StatItem where
  value : Option String := none
  label : Option String := none
deriving DecidableEq, Repr

/-- One column dict of a two_column layout: keys "title" and "content". -/
structure ColumnData where
  title : Option String := none
  content : Option String := none
deriving DecidableEq, Repr

/-- `SlideContent` (server.py 141-148). -/
structure SlideContent where
  title : String
  content : Option String := none
  bullet_points : Option (List String) := none
  layout : String := "title_content"
  image_path : Option String := none
  stats : Option (List StatItem) := none
  columns : Option (List ColumnData) := none
deriving DecidableEq, Repr

/-- `PresentationRequest` (server.py 150-158). -/
structure PresentationRequest where
  title : String
  subtitle : Option String := none
  author : Option String := none
  slides : List SlideContent
  color_palette : String := "corporate_blue"
  logo : Option String := none
  include_toc : Bool := false
  include_closing : Bool := true
deriving DecidableEq, Repr

/-- The bullet loop of `_add_standard_content` (server.py 427-442): per bullet,
an indented text box then the icon circle, stepped by 0.7in per index. -/
def bulletShapes (pal : Palette) (y0 : ℚ) : ℕ → List String → List Shape
  | _, [] => []
  | i, p :: rest =>
    Shape.textbox ⟨0.75, y0 + i * 0.7, 11.8, 0.6⟩
      [{ text := "    " ++ p, size := some 16, color := some pal.text_dark }]
    :: Shape.oval ⟨0.75, y0 + i * 0.7 + 0.1, 0.25, 0.25⟩ pal.secondary
    :: bulletShapes pal y0 (i + 1) rest

/-- `_add_standard_content` (server.py 411-442). -/
def addStandardContent (c : SlideContent) (pal : Palette) : List Shape :=
  (if strTruthy c.content then
    [Shape.textbox ⟨0.75, 1.6, 11.8, 4.5⟩
      [{ text := c.content.getD "", size := some 18, color := some pal.text_dark,
         spaceAfter := some 12 }]]
   else []) ++
  (if listTruthy c.bullet_points then
    bulletShapes pal (if strTruthy c.content then 3 else 1.6) 0 (c.bullet_points.getD [])
   else [])

/-- `_fill_column` (server.py 458-471): paragraph 0 is the column title when
present (otherwise it stays the default empty paragraph), then the column
content is appended as a new paragraph when present. -/
def fillColumn (col : ColumnData) (pal : Palette) : List Para :=
  (if strTruthy col.title then
    [{ text := col.title.getD "", size := some 20, bold := true, color := some pal.primary }]
   else [defaultPara]) ++
  (if strTruthy col.content then
    [{ text := col.content.getD "", size := some 14, color := some pal.text_dark }]
   else [])

/-- `_add_two_column_content` (server.py 444-456): requires at least two
columns, otherwise adds nothing. -/
def addTwoColumnContent (c : SlideContent) (pal : Palette) : List Shape :=
  match c.columns with
  | some (a :: b :: _) =>
    [Shape.textbox ⟨0.75, 1.6, 5.5, 5⟩ (fillColumn a pal),
     Shape.textbox ⟨7, 1.6, 5.5, 5⟩ (fillColumn b pal)]
  | _ => []

/-- The stats loop of `_add_stats_content` (server.py 482-502): block `i` gets a
value box and a label box at horizontal offset `0.75 + i * sw`. -/
def addStatsAux (pal : Palette) (sw : ℚ) : ℕ → List StatItem → List Shape
  | _, [] => []
  | i, st :: rest =>
    Shape.textbox ⟨0.75 + i * sw, 2.5, sw - 0.3, 1.5⟩
      [{ text := st.value.getD "", size := some 60, bold := true,
         color := some pal.primary, align := some PAlign.center }]
    :: Shape.textbox ⟨0.75 + i * sw, 4.2, sw - 0.3, 0.8⟩
      [{ text := st.label.getD "", size := some 16, color := some pal.text_dark,
         align := some PAlign.center }]
    :: addStatsAux pal sw (i + 1) rest

/-- `_add_stats_content` (server.py 473-502): nothing when the stats list is
absent or empty; otherwise blocks of width `(12 - 0.75) / num_stats`. -/
def addStatsContent (c : SlideContent) (pal : Palette) : List Shape :=
  if listTruthy c.stats then
    addStatsAux pal ((12 - 0.75) / ((c.stats.getD []).length : ℚ)) 0 (c.stats.getD [])
  else []

/-- `_add_image_left_content` (server.py 504-519).  The images directory is an
explicit registry; the text box on the right is always added. -/
def addImageLeftContent (images : List String) (c : SlideContent) (pal : Palette) :
    List Shape :=
  (if strTruthy c.image_path ∧ c.image_path.getD "" ∈ images then
    [Shape.picture (c.image_path.getD "") 0.5 1.6 5.5]
   else []) ++
  [Shape.textbox ⟨6.5, 1.6, 6, 5⟩
    [if strTruthy c.content then
      { text := c.content.getD "", size := some 16, color := some pal.text_dark }
     else defaultPara]]

/-- `_add_image_right_content` (server.py 521-536). -/
def addImageRightContent (images : List String) (c : SlideContent) (pal : Palette) :
    List Shape :=
  [Shape.textbox ⟨0.75, 1.6, 6, 5⟩
    [if strTruthy c.content then
      { text := c.content.getD "", size := some 16, color := some pal.text_dark }
     else defaultPara]] ++
  (if strTruthy c.image_path ∧ c.image_path.getD "" ∈ images then
    [Shape.picture (c.image_path.getD "") 7.3 1.6 5.5]
   else [])

/-- The layout dispatch of `create_professional_pptx` (server.py 367-378):
five known variants, all others fall through to the standard strategy. -/
def slideBody (images : List String) (c : SlideContent) (pal : Palette) : List Shape :=
  if c.layout = "title_content" then addStandardContent c pal
  else if c.layout = "two_column" then addTwoColumnContent c pal
  else if c.layout = "stats" then addStatsContent c pal
  else if c.layout = "image_left" then addImageLeftContent images c pal
  else if c.layout = "image_right" then addImageRightContent images c pal
  else addStandardContent c pal

/-- One content slide (server.py 340-382): white background, accent bar, slide
title, layout-dependent body, then the small corner logo when resolved. -/
def contentSlide (images : List String) (logo : Option String) (pal : Palette)
    (c : SlideContent) : List Shape :=
  Shape.rect ⟨0, 0, SLIDE_W, SLIDE_H⟩ "FFFFFF"
    :: Shape.rect ⟨0, 0, SLIDE_W, 0.1⟩ pal.primary
    :: Shape.textbox ⟨0.75, 0.5, 11.8, 0.9⟩
         [{ text := c.title, size := some 36, bold := true, color := some pal.text_dark }]
    :: (slideBody images c pal ++
        (match logo with
         | some lp => [Shape.picture lp 11.5 6.8 1.2]
         | none => []))

/-- The title slide (server.py 294-337); `now` is the formatted current date. -/
def titleSlide (now : String) (logo : Option String) (pal : Palette)
    (req : PresentationRequest) : List Shape :=
  Shape.rect ⟨0, 0, SLIDE_W, SLIDE_H⟩ pal.primary
    :: Shape.textbox ⟨0.75, 2.5, 11.8, 1.5⟩
         [{ text := req.title, size := some 44, bold := true,
            color := some pal.text_light, align := some PAlign.left }]
    :: ((if strTruthy req.subtitle then
          [Shape.textbox ⟨0.75, 4.2, 11.8, 0.8⟩
            [{ text := req.subtitle.getD "", size := some 24,
               color := some pal.secondary, align := some PAlign.left }]]
         else []) ++
        (match logo with
         | some lp => [Shape.picture lp 10.5 0.5 2]
         | none => []) ++
        (if strTruthy req.author then
          [Shape.textbox ⟨0.75, 6.5, 6, 0.5⟩
            [{ text := req.author.getD "" ++ " | " ++ now, size := some 14,
               color := some pal.accent }]]
         else []))

/-- The closing slide (server.py 384-403). -/
def closingSlide (logo : Option String) (pal : Palette) : List Shape :=
  Shape.rect ⟨0, 0, SLIDE_W, SLIDE_H⟩ pal.primary
    :: Shape.textbox ⟨0.75, 3, 11.8, 1.5⟩
         [{ text := "Vielen Dank!", size := some 54, bold := true,
            color := some pal.text_light, align := some PAlign.center }]
    :: (match logo with
        | some lp => [Shape.picture lp 5.5 5 2.5]
        | none => [])

/-- `create_professional_pptx` (server.py 284-409), up to serialization: the
title slide, one slide per content unit in request order (a `foldl`, mirroring
the for-loop), then the closing slide when requested. -/
def composePptx (now : String) (logos images : List String)
    (req : PresentationRequest) : List (List Shape) :=
  let pal := resolvePalette req.color_palette
  let logo := get_logo_path logos req.logo
  let s1 := req.slides.foldl (fun acc c => acc ++ [contentSlide images logo pal c])
    [titleSlide now logo pal req]
  if req.include_closing then s1 ++ [closingSlide logo pal] else s1

-- ============================================================================
-- EXCEL MODEL  (server.py lines 181-202, 645-762)
-- ============================================================================

/-- A cell value: the data payload types the service writes (strings, ints,
floats); a formula is written as its literal string. -/
inductive CellValue where
  | str (s : String)
  | int (n : ℤ)
  | float (q : ℚ)
deriving DecidableEq, Repr

/-- `isinstance(value, (int, float))` (server.py 698). -/
def isNumeric : CellValue → Bool
  | .int _ => true
  | .float _ => true
  | .str _ => false

/-- The font attributes openpyxl `Font(...)` carries as set by the service. -/
structure XFont where
  bold : Bool := false
  color : Option String := none
  size : Option ℕ := none
deriving DecidableEq, Repr

/-- A worksheet cell with the style attributes the service sets. -/
structure XCell where
  value : CellValue
  font : Option XFont := none
  fill : Option String := none
  border : Bool := false
  alignH : Option String := none
  alignV : Option String := none
deriving DecidableEq, Repr

/-- A worksheet's cells, indexed (row, column), both 1-based as in openpyxl. -/
abbrev Grid := ℕ → ℕ → Option XCell

def emptyGrid : Grid := fun _ _ => none

/-- Assigning one cell of the worksheet. -/
def setCell (g : Grid) (r c : ℕ) (x : XCell) : Grid := fun r0 c0 =>
  if r0 = r then (if c0 = c then some x else g r0 c0) else g r0 c0

/-- `ChartConfig` (server.py 181-186). -/
structure ChartConfig where
  type : String := "bar"
  title : String
  data_range : String
  categories_range : Option String := none
  position : String := "E2"
deriving DecidableEq, Repr

/-- `ExcelSheet` (server.py 188-195).  Formula dict keys are A1-style cell
references; openpyxl translates each reference to (row, column) coordinates,
so the embedding keys the dict by those coordinates directly. -/
structure ExcelSheet where
  name : String
  headers : Option (List String) := none
  data : Option (List (List CellValue)) := none
  column_widths : Option (List (String × ℕ)) := none
  charts : Option (List ChartConfig) := none
  formulas : Option (List ((ℕ × ℕ) × String)) := none
deriving DecidableEq, Repr

/-- `ExcelRequest` (server.py 197-202). -/
structure ExcelRequest where
  filename : String
  sheets : List ExcelSheet
  template : Option String := none
  logo : Option String := none
  style : String := "professional"
deriving DecidableEq, Repr

/-- The style-dependent header fill (server.py 660-665): professional default
003366, overridden for financial and minimal. -/
def headerFill (style : String) : String :=
  if style = "financial" then "1E3A5F"
  else if style = "minimal" then "666666"
  else "003366"

/-- A header cell (server.py 684-689): bold white 11pt font, brand fill,
center/center alignment, thin border. -/
def headerCell (h : String) (fill : String) : XCell :=
  { value := .str h,
    font := some { bold := true, color := some "FFFFFF", size := some 11 },
    fill := some fill,
    border := true,
    alignH := some "center",
    alignV := some "center" }

/-- A data cell (server.py 695-698): thin border, horizontal alignment center
for numeric values and left otherwise. -/
def dataCell (v : CellValue) : XCell :=
  { value := v,
    border := true,
    alignH := some (if isNumeric v then "center" else "left") }

/-- The header loop (server.py 683-690): `enumerate(headers, 1)` into row 1. -/
def writeHeaders (fill : String) : ℕ → List String → Grid → Grid
  | _, [], g => g
  | c, h :: rest, g => writeHeaders fill (c + 1) rest (setCell g 1 c (headerCell h fill))

/-- One data row (server.py 695-698): `enumerate(row_data, 1)`. -/
def writeRow (r : ℕ) : ℕ → List CellValue → Grid → Grid
  | _, [], g => g
  | c, v :: rest, g => writeRow r (c + 1) rest (setCell g r c (dataCell v))

/-- The data loop (server.py 693-699): consecutive rows from `current_row`. -/
def writeRows : ℕ → List (List CellValue) → Grid → Grid
  | _, [], g => g
  | r, row :: rest, g => writeRows (r + 1) rest (writeRow r 1 row g)

/-- One formula assignment (server.py 703-705): `ws[ref] = formula` replaces
the cell value keeping other styles, then the font is set to plain bold. -/
def applyFormula (g : Grid) (r c : ℕ) (f : String) : Grid :=
  setCell g r c
    (match g r c with
     | some old => { old with value := .str f, font := some { bold := true } }
     | none => { value := .str f, font := some { bold := true } })

/-- The formula loop (server.py 702-705). -/
def applyFormulas : List ((ℕ × ℕ) × String) → Grid → Grid
  | [], g => g
  | ((r, c), f) :: rest, g => applyFormulas rest (applyFormula g r c f)

inductive ChartType where
  | bar
  | line
  | pie
deriving DecidableEq, Repr

/-- The chart object the binder produces: type, title, fixed style 10. -/
structure XChart where
  ctype : ChartType
  title : String
  style : ℕ
deriving DecidableEq, Repr

/-- The chart type dispatch of `_create_chart` (server.py 747-754): unknown
types fall back to a bar chart. -/
def chartTypeOf (t : String) : ChartType :=
  if t = "bar" then .bar
  else if t = "line" then .line
  else if t = "pie" then .pie
  else .bar

/-- Python `str.split(sep)` for a one-character separator, over the character
list: the empty string gives one empty part, and each separator occurrence
starts a new part. -/
def splitOnChar (sep : Char) : List Char → List (List Char)
  | [] => [[]]
  | c :: rest =>
    match splitOnChar sep rest with
    | [] => [[c]]
    | h :: t => if c = sep then [] :: h :: t else (c :: h) :: t

/-- `config.data_range.split(':')` (server.py 742). -/
def splitRange (s : String) : List (List Char) := splitOnChar ':' s.data

/-- `_create_chart` (server.py 738-762): a data_range that does not split into
exactly two colon-separated parts yields no chart. -/
def createChart (cfg : ChartConfig) : Option XChart :=
  if (splitRange cfg.data_range).length ≠ 2 then none
  else some ⟨chartTypeOf cfg.type, cfg.title, 10⟩

/-- The chart loop (server.py 717-721): each built chart is anchored at its
configured position; a `None` chart is skipped. -/
def sheetCharts (cfg : ExcelSheet) : List (XChart × String) :=
  match cfg.charts with
  | none => []
  | some cs => cs.filterMap (fun cc => (createChart cc).map (fun ch => (ch, cc.position)))

/-- One sheet of `create_professional_xlsx` (server.py 674-721): headers from
row 1, data from the following row, then formulas, then charts.  `g0` is the
worksheet's prior content (empty for a fresh sheet). -/
def composeSheet (style : String) (cfg : ExcelSheet) (g0 : Grid) :
    Grid × List (XChart × String) :=
  let g1 := if listTruthy cfg.headers
    then writeHeaders (headerFill style) 1 (cfg.headers.getD []) g0 else g0
  let r2 := if listTruthy cfg.headers then 2 else 1
  let g2 := if listTruthy cfg.data then writeRows r2 (cfg.data.getD []) g1 else g1
  let g3 := if listTruthy cfg.formulas then applyFormulas (cfg.formulas.getD []) g2 else g2
  (g3, sheetCharts cfg)

/-- Replace the entry of an existing sheet name or append a new sheet (the
`if sheet_config.name in wb.sheetnames` branch, server.py 675-678). -/
def replaceOrAppend {α : Type _} : List (String × α) → String → α → List (String × α)
  | [], n, v => [(n, v)]
  | (k, x) :: rest, n, v =>
    if k = n then (n, v) :: rest else (k, x) :: replaceOrAppend rest n v

/-- First-match workbook sheet lookup. -/
def lookupSheet {α : Type _} : List (String × α) → String → Option α
  | [], _ => none
  | (k, x) :: rest, n => if k = n then some x else lookupSheet rest n

/-- The sheet loop of `create_professional_xlsx` (server.py 674-721) over a
workbook of named sheets; a repeated name reuses the existing worksheet state
and accumulates its charts. -/
def composeWorkbook (style : String) :
    List ExcelSheet → List (String × (Grid × List (XChart × String)))
      → List (String × (Grid × List (XChart × String)))
  | [], wb => wb
  | cfg :: rest, wb =>
    let prior := (lookupSheet wb cfg.name).getD (emptyGrid, [])
    let res := composeSheet style cfg prior.1
    composeWorkbook style rest (replaceOrAppend wb cfg.name (res.1, prior.2 ++ res.2))

/-- `create_professional_xlsx` (server.py 645-736) up to serialization: a fresh
workbook (the default sheet already removed) filled sheet by sheet. -/
def composeXlsx (req : ExcelRequest) : List (String × (Grid × List (XChart × String))) :=
  composeWorkbook req.style req.sheets []

/-- The worksheet region the header and data loops write: row 1 up to the
header count, and row 2+k up to the length of data row k. -/
def writtenRegion (hs : List String) (rows : List (List CellValue)) (r c : ℕ) : Prop :=
  (r = 1 ∧ 1 ≤ c ∧ c ≤ hs.length) ∨
  (∃ k row, rows.get? k = some row ∧ r = 2 + k ∧ 1 ≤ c ∧ c ≤ row.length)

-- ============================================================================
-- PDF MODEL  (server.py lines 205-221, 768-875)
-- ============================================================================

/-- The paragraph styles the PDF composer uses: the sample-sheet Normal style
and the three custom palette-colored styles (server.py 789-813). -/
inductive PdfStyle where
  | normal
  | customTitle (color : String)
  | heading1 (color : String)
  | heading2 (color : String)
deriving DecidableEq, Repr

/-- A reportlab flowable as appended to the story, sizes in points. -/
inductive Flowable where
  | para (text : String) (style : PdfStyle)
  | spacer (w : ℚ) (h : ℚ)
  | table (data : List (List String)) (headerBg : String)
  | image (path : String) (w : ℚ) (h : ℚ)
  | pageBreak
deriving DecidableEq, Repr

/-- `PDFSection` (server.py 205-211). -/
structure PDFSection where
  type : String := "paragraph"
  content : Option String := none
  level : ℕ := 1
  data : Option (List (List String)) := none
  image_path : Option String := none
  height : Option ℚ := none
deriving DecidableEq, Repr

/-- `PDFRequest` (server.py 213-221). -/
structure PDFRequest where
  title : String
  author : Option String := none
  sections : List PDFSection
  page_size : String := "A4"
  logo : Option String := none
  header_text : Option String := none
  footer_text : Option String := none
  color_scheme : String := "corporate_blue"
deriving DecidableEq, Repr

/-- One inch in points (reportlab `inch`). -/
def inch : ℚ := 72

/-- One centimeter in points (reportlab `cm` = inch / 2.54). -/
def cm : ℚ := 72 / 2.54

/-- The section dispatch of `create_professional_pdf` (server.py 833-872):
an if/elif chain on the section type; a section matching no branch (or a
table/image section missing its payload) contributes nothing.  The spacer
height uses Python `section.height or 1`, so a zero height also falls back
to 1. -/
def composePdfSection (images : List String) (pal : Palette) (s : PDFSection) :
    List Flowable :=
  if s.type = "heading" then
    [.para (s.content.getD "")
      (if s.level = 1 then .heading1 pal.primary else .heading2 pal.secondary)]
  else if s.type = "paragraph" then
    [.para (s.content.getD "") .normal, .spacer 1 (0.2 * inch)]
  else if s.type = "table" ∧ listTruthy s.data then
    [.table (s.data.getD []) pal.primary, .spacer 1 (0.3 * inch)]
  else if s.type = "image" ∧ strTruthy s.image_path ∧ s.image_path.getD "" ∈ images then
    [.image (s.image_path.getD "") (4 * inch) (3 * inch), .spacer 1 (0.3 * inch)]
  else if s.type = "spacer" then
    [.spacer 1 ((match s.height with
      | none => 1
      | some x => if x = 0 then 1 else x) * cm)]
  else if s.type = "page_break" then [.pageBreak]
  else []

/-- `create_professional_pdf` (server.py 768-875) up to `doc.build`: logo,
title, author line, then the sections in order. -/
def composePdf (logos images : List String) (now : String) (req : PDFRequest) :
    List Flowable :=
  let pal := resolvePalette req.color_scheme
  (match get_logo_path logos req.logo with
   | some lp => [Flowable.image lp (2 * inch) (0.75 * inch), Flowable.spacer 1 (0.5 * inch)]
   | none => []) ++
  [Flowable.para req.title (.customTitle pal.primary)] ++
  (if strTruthy req.author then
    [Flowable.para ("<i>" ++ req.author.getD "" ++ " | " ++ now ++ "</i>") .normal,
     Flowable.spacer 1 (0.5 * inch)]
   else []) ++
  (req.sections.map (composePdfSection images pal)).flatten

-- ============================================================================
-- WORD MODEL  (server.py lines 161-178, 542-639)
-- ============================================================================

/-- A block added to the Word document body, in creation order. -/
inductive DocxBlock where
  | heading (text : String) (level : ℕ)
  | paragraph (text : String)
  | bulletItem (text : String)
  | table (data : List (List String))
  | picture (path : String) (w : ℚ)
  | pageBreak
  | emptyPara
deriving DecidableEq, Repr

/-- `DocumentSection` (server.py 161-167). -/
structure DocumentSection where
  heading : Option String := none
  heading_level : ℕ := 1
  content : Option String := none
  bullet_points : Option (List String) := none
  table : Option (List (List String)) := none
  image_path : Option String := none
deriving DecidableEq, Repr

/-- `WordDocumentRequest` (server.py 169-178). -/
structure WordDocumentRequest where
  title : String
  subtitle : Option String := none
  author : Option String := none
  sections : List DocumentSection
  template : Option String := none
  logo : Option String := none
  header_text : Option String := none
  footer_text : Option String := none
  include_toc : Bool := false
deriving DecidableEq, Repr

/-- One document section (server.py 584-601): heading, content, bullets,
table, image — each only when present. -/
def composeDocxSection (images : List String) (s : DocumentSection) : List DocxBlock :=
  (if strTruthy s.heading then [DocxBlock.heading (s.heading.getD "") s.heading_level]
   else []) ++
  (if strTruthy s.content then [DocxBlock.paragraph (s.content.getD "")] else []) ++
  (if listTruthy s.bullet_points then (s.bullet_points.getD []).map DocxBlock.bulletItem
   else []) ++
  (if listTruthy s.table then [DocxBlock.table (s.table.getD [])] else []) ++
  (if strTruthy s.image_path ∧ s.image_path.getD "" ∈ images then
    [DocxBlock.picture (s.image_path.getD "") 5]
   else [])

/-- The composed Word document: the body blocks plus header/footer texts. -/
structure DocxDoc where
  blocks : List DocxBlock
  header : Option String := none
  footer : Option String := none
deriving DecidableEq, Repr

/-- `create_professional_docx` (server.py 542-622) up to serialization. -/
def composeDocx (logos images : List String) (now : String)
    (req : WordDocumentRequest) : DocxDoc :=
  { blocks :=
      (match get_logo_path logos req.logo with
       | some lp => [DocxBlock.picture lp 2, DocxBlock.emptyPara]
       | none => []) ++
      [DocxBlock.heading req.title 0] ++
      (if strTruthy req.subtitle then [DocxBlock.paragraph (req.subtitle.getD "")] else []) ++
      (if strTruthy req.author then
        [DocxBlock.paragraph (req.author.getD "" ++ " | " ++ now)]
       else []) ++
      [DocxBlock.emptyPara] ++
      (if req.include_toc then
        [DocxBlock.heading "Inhaltsverzeichnis" 1,
         DocxBlock.paragraph "[Inhaltsverzeichnis wird nach dem Öffnen in Word aktualisiert]",
         DocxBlock.pageBreak]
       else []) ++
      (req.sections.map (composeDocxSection images)).flatten,
    header := if strTruthy req.header_text then some (req.header_text.getD "") else none,
    footer := if strTruthy req.footer_text then some (req.footer_text.getD "") else none }

-- ============================================================================
-- STORE AND REQUEST HANDLERS  (server.py lines 405-408, 733-735, 874, 929-982)
-- ============================================================================

/-- The generated-files store: filename to file bytes. -/
abbrev FileStore := List (String × String)

/-- The pptx endpoint path (server.py 929-940 with 405-409): compose, then
serialize, and only on success persist the file under its generated name; any
failure surfaces as the single error response and leaves the store unchanged. -/
def handlePptx (serialize : List (List Shape) → Except String String)
    (fname now : String) (logos images : List String)
    (store : FileStore) (req : PresentationRequest) :
    FileStore × Except String String :=
  match serialize (composePptx now logos images req) with
  | .error e => (store, .error e)
  | .ok bytes => (store ++ [(fname, bytes)], .ok fname)

/-- The docx endpoint path (server.py 943-954 with 618-622). -/
def handleDocx (serialize : DocxDoc → Except String String)
    (fname now : String) (logos images : List String)
    (store : FileStore) (req : WordDocumentRequest) :
    FileStore × Except String String :=
  match serialize (composeDocx logos images now req) with
  | .error e => (store, .error e)
  | .ok bytes => (store ++ [(fname, bytes)], .ok fname)

/-- The xlsx endpoint path (server.py 957-968 with 732-736). -/
def handleXlsx (serialize : List (String × (Grid × List (XChart × String)))
      → Except String String)
    (fname : String) (store : FileStore) (req : ExcelRequest) :
    FileStore × Except String String :=
  match serialize (composeXlsx req) with
  | .error e => (store, .error e)
  | .ok bytes => (store ++ [(fname, bytes)], .ok fname)

/-- The pdf endpoint path (server.py 971-982 with 874): reportlab writes the
file inside `doc.build`, whose canvas saves only after every flowable has been
laid out, so a failing build persists nothing. -/
def handlePdf (serialize : List Flowable → Except String String)
    (fname now : String) (logos images : List String)
    (store : FileStore) (req : PDFRequest) :
    FileStore × Except String String :=
  match serialize (composePdf logos images now req) with
  | .error e => (store, .error e)
  | .ok bytes => (store ++ [(fname, bytes)], .ok fname)

-- ============================================================================
-- FILENAME GENERATION  (server.py lines 239-242, 406, 619, 733, 771)
-- ============================================================================

/-- A timestamp as broken down by `datetime.now()`. -/
structure Timestamp where
  year : ℕ
  month : ℕ
  day : ℕ
  hour : ℕ
  minute : ℕ
  second : ℕ
deriving DecidableEq, Repr

/-- Two-digit zero-padded decimal (strftime %m, %d, %H, %M, %S). -/
def pad2 (n : ℕ) : String :=
  ⟨[Nat.digitChar (n / 10 % 10), Nat.digitChar (n % 10)]⟩

/-- Four-digit zero-padded decimal (strftime %Y for years up to 9999). -/
def pad4 (n : ℕ) : String :=
  ⟨[Nat.digitChar (n / 1000 % 10), Nat.digitChar (n / 100 % 10),
    Nat.digitChar (n / 10 % 10), Nat.digitChar (n % 10)]⟩

/-- `datetime.now().strftime("%Y%m%d_%H%M%S")` (server.py 240). -/
def formatTimestamp (t : Timestamp) : String :=
  pad4 t.year ++ pad2 t.month ++ pad2 t.day ++ "_"
    ++ pad2 t.hour ++ pad2 t.minute ++ pad2 t.second

/-- `uuid.uuid4().hex[:8]` (server.py 241): the first 8 characters of the
32-character lowercase hex digest. -/
def shortId (hex32 : String) : String := ⟨hex32.data.take 8⟩

/-- The lowercase hex alphabet of `uuid.hex`. -/
def hexDigits : List Char := "0123456789abcdef".data

/-- Python `s.replace(pat, "")`: drop every non-overlapping occurrence of
`pat`, scanning left to right.  The fuel argument is the input length. -/
def stripAllAux (pat : List Char) : ℕ → List Char → List Char
  | 0, s => s
  | _ + 1, [] => []
  | fuel + 1, c :: rest =>
    if pat ≠ [] ∧ pat.isPrefixOf (c :: rest) then
      stripAllAux pat fuel ((c :: rest).drop pat.length)
    else c :: stripAllAux pat fuel rest

/-- `request.filename.replace(".xlsx", "")` (server.py 733). -/
def pyReplaceDrop (s pat : String) : String :=
  ⟨stripAllAux pat.data s.data.length s.data⟩

/-- `generate_filename` (server.py 239-242). -/
def generate_filename (pfx ts uid ext : String) : String :=
  pfx ++ "_" ++ ts ++ "_" ++ uid ++ "." ++ ext

/-- Filename for pptx output (server.py 406). -/
def pptxFilename (ts uid : String) : String :=
  generate_filename "presentation" ts uid "pptx"

/-- Filename for docx output (server.py 619). -/
def docxFilename (ts uid : String) : String :=
  generate_filename "document" ts uid "docx"

/-- Filename for pdf output (server.py 771). -/
def pdfFilename (ts uid : String) : String :=
  generate_filename "document" ts uid "pdf"

/-- Filename for xlsx output (server.py 733): the name part is the
user-supplied request filename with ".xlsx" occurrences removed. -/
def xlsxFilename (reqFilename ts uid : String) : String :=
  generate_filename (pyReplaceDrop reqFilename ".xlsx") ts uid "xlsx"

-- ============================================================================
-- CONCRETE EXAMPLE INPUTS (used by witnesses)
-- ============================================================================

/-- Four concrete stat blocks, the spec's N=4 instance. -/
def statsExList : List StatItem :=
  [⟨some "95%", some "Zufriedenheit"⟩, ⟨some "40", some "Projekte"⟩,
   ⟨some "12", some "Standorte"⟩, ⟨some "365", some "Tage"⟩]

/-- A stats-layout slide with four stat blocks. -/
def statsEx : SlideContent :=
  { title := "KPIs", layout := "stats", stats := some statsExList }

/-- A slide using the unhandled layout tag "comparison". -/
def cmpEx : SlideContent :=
  { title := "Vergleich", layout := "comparison", content := some "Beide Optionen" }

/-- A sheet whose formula dict targets data cell B2, i.e. coordinates (2, 1). -/
def c2CexSheet : ExcelSheet :=
  { name := "S", headers := some ["A"], data := some [[.int 1]],
    formulas := some [((2, 1), "=1+1")] }

/-- The spec's round-trip sheet: headers A,B and rows 1,2 / 3,4. -/
def c2Sheet : ExcelSheet :=
  { name := "Daten", headers := some ["A", "B"],
    data := some [[.int 1, .int 2], [.int 3, .int 4]] }

/-- A well-formed chart spec. -/
def c3GoodChart : ChartConfig :=
  { type := "line", title := "Umsatz", data_range := "A1:B5", position := "E2" }

/-- A chart spec whose data_range has no colon. -/
def c3BadChart : ChartConfig :=
  { type := "bar", title := "Kaputt", data_range := "A1", position := "F2" }

/-- A sheet carrying one good and one malformed chart. -/
def c3Sheet : ExcelSheet :=
  { name := "S", headers := some ["A", "B"], data := some [[.int 1, .int 2]],
    charts := some [c3GoodChart, c3BadChart] }

/-- A slide providing only its required title. -/
def titleOnlySlide : SlideContent := { title := "Nur Titel" }

/-- A page section providing only a heading. -/
def headingOnlySection : PDFSection := { type := "heading", content := some "Abschnitt" }

/-- Minimal concrete requests of the four kinds. -/
def pptxReqEx : PresentationRequest := { title := "T", slides := [titleOnlySlide] }

def docxReqEx : WordDocumentRequest := { title := "T", sections := [] }

def xlsxReqEx : ExcelRequest := { filename := "bericht", sheets := [c2Sheet] }

def pdfReqEx : PDFRequest := { title := "T", sections := [headingOnlySection] }

end FCS

-- ============================================================================
-- THEOREMS (trial)
-- ============================================================================

namespace FCS

/-- Every lookup result is either the default or a value of the table. -/
theorem lookupPal_mem_or : ∀ (l : List (String × Palette)) (s : String),
    lookupPal l s = none ∨ ∃ p, lookupPal l s = some p ∧ (s, p) ∈ l := by
  intro l
  induction l with
  | nil => intro s; exact Or.inl rfl
  | cons kv rest ih =>
    obtain ⟨k, v⟩ := kv
    intro s
    by_cases h : k = s
    · refine Or.inr ⟨v, ?_, ?_⟩
      · show (if k = s then some v else lookupPal rest s) = some v
        rw [if_pos h]
      · subst h
        exact List.mem_cons_self _ _
    · have hrec := ih s
      have hstep : lookupPal ((k, v) :: rest) s = lookupPal rest s := by
        show (if k = s then some v else lookupPal rest s) = lookupPal rest s
        rw [if_neg h]
      rcases hrec with h0 | ⟨p, hp, hm⟩
      · exact Or.inl (hstep.trans h0)
      · exact Or.inr ⟨p, hstep.trans hp, List.mem_cons_of_mem _ hm⟩

/-- Unknown key means no table hit. -/
theorem lookupPal_not_mem : ∀ (l : List (String × Palette)) (s : String),
    s ∉ l.map Prod.fst → lookupPal l s = none := by
  intro l
  induction l with
  | nil => intro s _; rfl
  | cons kv rest ih =>
    obtain ⟨k, v⟩ := kv
    intro s hs
    have h1 : k ≠ s := by
      intro h; exact hs (by simp [h])
    have h2 : s ∉ rest.map Prod.fst := by
      intro h; exact hs (by simp [h])
    show (if k = s then some v else lookupPal rest s) = none
    rw [if_neg h1]
    exact ih s h2

/-- C4: for every input string, palette resolution returns a palette with all
5 color roles (primary, secondary, accent, text_dark, text_light) non-empty and
never fails; any name not among the supported palette names resolves to exactly
the default `corporate_blue` palette. -/
theorem resolvePalette_complete_and_defaults (s : String) :
    paletteComplete (resolvePalette s) ∧
    (s ∉ COLOR_PALETTES.map Prod.fst → resolvePalette s = corporateBluePalette) := by
  constructor
  · rcases lookupPal_mem_or COLOR_PALETTES s with h | ⟨p, hp, hm⟩
    · unfold resolvePalette
      rw [h]
      decide
    · unfold resolvePalette
      rw [hp]
      have hall : ∀ q ∈ COLOR_PALETTES, paletteComplete q.2 := by decide
      exact hall (s, p) hm
  · intro hs
    unfold resolvePalette
    rw [lookupPal_not_mem _ _ hs]
    rfl

/-- Witness for C4: the unknown name "neon_dreams" resolves to the default
palette, which has all five roles non-empty. -/
theorem resolvePalette_witness :
    resolvePalette "neon_dreams" = corporateBluePalette ∧
    paletteComplete (resolvePalette "neon_dreams") := by
  have h := resolvePalette_complete_and_defaults "neon_dreams"
  exact ⟨h.2 (by decide), h.1⟩

/-- The extension probe loop is a first-match search over the probe candidates
in the fixed order of the extension list. -/
theorem tryExts_eq_find : ∀ (exts reg : List String) (n : String),
    tryExts reg n exts = (exts.map (fun e => n ++ e)).find? (fun c => decide (c ∈ reg)) := by
  intro exts
  induction exts with
  | nil => intro reg n; rfl
  | cons e rest ih =>
    intro reg n
    show (if (n ++ e) ∈ reg then some (n ++ e) else tryExts reg n rest) = _
    by_cases h : (n ++ e) ∈ reg
    · simp [List.find?_cons, h]
    · simp [List.find?_cons, h, ih reg n]

/-- C5: logo lookup returns absent immediately for an empty/None name;
otherwise it probes the registry by the exact name first, then by appending
each extension of the fixed ordered list .png, .jpg, .jpeg, .svg, returning
the first match, and returns absent (not an error) when nothing matches. -/
theorem get_logo_path_spec (reg : List String) (n : String) :
    get_logo_path reg none = none ∧
    get_logo_path reg (some "") = none ∧
    (n ≠ "" →
      get_logo_path reg (some n) =
        (if n ∈ reg then some n
         else (LOGO_EXTS.map (fun e => n ++ e)).find? (fun c => decide (c ∈ reg)))) ∧
    (n ≠ "" → n ∉ reg → (∀ e ∈ LOGO_EXTS, n ++ e ∉ reg) →
      get_logo_path reg (some n) = none) := by
  refine ⟨rfl, by simp [get_logo_path], ?_, ?_⟩
  · intro hn
    show (if n = "" then none
          else if n ∈ reg then some n else tryExts reg n LOGO_EXTS) = _
    rw [if_neg hn]
    by_cases h : n ∈ reg
    · rw [if_pos h, if_pos h]
    · rw [if_neg h, if_neg h]
      exact tryExts_eq_find LOGO_EXTS reg n
  · intro hn hmem hexts
    show (if n = "" then none
          else if n ∈ reg then some n else tryExts reg n LOGO_EXTS) = none
    rw [if_neg hn, if_neg hmem, tryExts_eq_find]
    rw [List.find?_eq_none]
    intro c hc
    simp only [List.mem_map] at hc
    obtain ⟨e, he, rfl⟩ := hc
    simpa using hexts e he

/-- Witness for C5: with a registry holding only "acme.jpg", the name "acme"
resolves through the extension probes to "acme.jpg" (skipping ".png"), and a
registry with no match yields absent. -/
theorem get_logo_path_witness :
    get_logo_path ["acme.jpg"] (some "acme") = some "acme.jpg" ∧
    get_logo_path ["other.png"] (some "acme") = none := by
  constructor
  · have h := (get_logo_path_spec ["acme.jpg"] "acme").2.2.1 (by decide)
    rw [h]
    decide
  · exact (get_logo_path_spec ["other.png"] "acme").2.2.2 (by decide) (by decide)
      (by decide)

/-- Appending one mapped element per iteration is the same as appending the
mapped list (the shape of the content-slide for-loop). -/
theorem foldl_append_map {α β : Type _} (f : α → β) :
    ∀ (l : List α) (s0 : List β),
      l.foldl (fun acc c => acc ++ [f c]) s0 = s0 ++ l.map f := by
  intro l
  induction l with
  | nil => intro s0; simp
  | cons a t ih =>
    intro s0
    simp only [List.foldl_cons, List.map_cons]
    rw [ih]
    simp

/-- C10: the composed presentation is exactly the title slide, then one content
slide per requested unit in request order, then the closing slide when and only
when include_closing is set; hence it has 1 + len(slides) + (closing? 1 : 0)
slides. -/
theorem composePptx_slide_sequence (now : String) (logos images : List String)
    (req : PresentationRequest) :
    composePptx now logos images req =
      titleSlide now (get_logo_path logos req.logo) (resolvePalette req.color_palette) req
        :: (req.slides.map (contentSlide images (get_logo_path logos req.logo)
              (resolvePalette req.color_palette))
            ++ (if req.include_closing then
                  [closingSlide (get_logo_path logos req.logo)
                    (resolvePalette req.color_palette)]
                else [])) ∧
    (composePptx now logos images req).length =
      1 + req.slides.length + (if req.include_closing then 1 else 0) := by
  have hmain : composePptx now logos images req =
      titleSlide now (get_logo_path logos req.logo) (resolvePalette req.color_palette) req
        :: (req.slides.map (contentSlide images (get_logo_path logos req.logo)
              (resolvePalette req.color_palette))
            ++ (if req.include_closing then
                  [closingSlide (get_logo_path logos req.logo)
                    (resolvePalette req.color_palette)]
                else [])) := by
    show (let pal := resolvePalette req.color_palette
          let logo := get_logo_path logos req.logo
          let s1 := req.slides.foldl (fun acc c => acc ++ [contentSlide images logo pal c])
            [titleSlide now logo pal req]
          if req.include_closing then s1 ++ [closingSlide logo pal] else s1) = _
    simp only
    rw [foldl_append_map]
    by_cases hc : req.include_closing <;> simp [hc]
  refine ⟨hmain, ?_⟩
  rw [hmain]
  by_cases hc : req.include_closing <;> simp [hc] <;> omega

/-- Each stat block contributes exactly two shapes. -/
theorem addStatsAux_length (pal : Palette) (sw : ℚ) :
    ∀ (l : List StatItem) (i0 : ℕ), (addStatsAux pal sw i0 l).length = 2 * l.length := by
  intro l
  induction l with
  | nil => intro i0; rfl
  | cons st rest ih =>
    intro i0
    show (addStatsAux pal sw (i0 + 1) rest).length + 1 + 1 = 2 * (rest.length + 1)
    rw [ih (i0 + 1)]
    omega

/-- Indexing into the stats shape list: block k sits at offset 0.75 + (i0+k)*sw
and occupies list positions 2k and 2k+1. -/
theorem addStatsAux_get (pal : Palette) (sw : ℚ) :
    ∀ (l : List StatItem) (i0 k : ℕ) (st : StatItem), l.get? k = some st →
      (addStatsAux pal sw i0 l).get? (2 * k) =
        some (Shape.textbox ⟨0.75 + (i0 + k) * sw, 2.5, sw - 0.3, 1.5⟩
          [{ text := st.value.getD "", size := some 60, bold := true,
             color := some pal.primary, align := some PAlign.center }]) ∧
      (addStatsAux pal sw i0 l).get? (2 * k + 1) =
        some (Shape.textbox ⟨0.75 + (i0 + k) * sw, 4.2, sw - 0.3, 0.8⟩
          [{ text := st.label.getD "", size := some 16, color := some pal.text_dark,
             align := some PAlign.center }]) := by
  intro l
  induction l with
  | nil => intro i0 k st h; simp at h
  | cons s0 rest ih =>
    intro i0 k st h
    cases k with
    | zero =>
      have hst : s0 = st := by simpa using h
      subst hst
      constructor <;> simp [addStatsAux]
    | succ k =>
      have hrest : rest.get? k = some st := by simpa using h
      obtain ⟨h1, h2⟩ := ih (i0 + 1) k st hrest
      have e : ((i0 + 1 : ℕ) : ℚ) + (k : ℚ) = (i0 : ℚ) + ((k + 1 : ℕ) : ℚ) := by
        push_cast
        ring
      rw [e] at h1 h2
      constructor
      · rw [show 2 * (k + 1) = 2 * k + 1 + 1 by ring]
        simpa [addStatsAux] using h1
      · rw [show 2 * (k + 1) + 1 = (2 * k + 1) + 1 + 1 by ring]
        simpa [addStatsAux] using h2

/-- C1: on a stats-layout slide with a non-empty list of N stat blocks, block i
is placed at horizontal offset 0.75 + i * sw with sw = (12 - 0.75) / N (its
text boxes being 0.3in narrower than the column), blocks run left-to-right,
and no two blocks overlap horizontally. -/
theorem stats_layout (c : SlideContent) (pal : Palette) (l : List StatItem)
    (hs : c.stats = some l) (hne : l ≠ []) :
    (∀ k st, l.get? k = some st →
      (addStatsContent c pal).get? (2 * k) =
        some (Shape.textbox
          ⟨0.75 + k * ((12 - 0.75) / (l.length : ℚ)), 2.5,
           (12 - 0.75) / (l.length : ℚ) - 0.3, 1.5⟩
          [{ text := st.value.getD "", size := some 60, bold := true,
             color := some pal.primary, align := some PAlign.center }]) ∧
      (addStatsContent c pal).get? (2 * k + 1) =
        some (Shape.textbox
          ⟨0.75 + k * ((12 - 0.75) / (l.length : ℚ)), 4.2,
           (12 - 0.75) / (l.length : ℚ) - 0.3, 0.8⟩
          [{ text := st.label.getD "", size := some 16, color := some pal.text_dark,
             align := some PAlign.center }])) ∧
    (∀ i j : ℕ, i < j → j < l.length →
      (0.75 + i * ((12 - 0.75) / (l.length : ℚ)))
          + ((12 - 0.75) / (l.length : ℚ) - 0.3)
        < 0.75 + j * ((12 - 0.75) / (l.length : ℚ))) ∧
    (addStatsContent c pal).length = 2 * l.length := by
  have hEmpty : l.isEmpty = false := by
    cases l with
    | nil => exact absurd rfl hne
    | cons a t => rfl
  have hbody : addStatsContent c pal =
      addStatsAux pal ((12 - 0.75) / (l.length : ℚ)) 0 l := by
    unfold addStatsContent
    simp [hs, listTruthy, hEmpty]
  refine ⟨?_, ?_, ?_⟩
  · intro k st hk
    obtain ⟨h1, h2⟩ := addStatsAux_get pal ((12 - 0.75) / (l.length : ℚ)) l 0 k st hk
    rw [hbody]
    constructor
    · simpa using h1
    · simpa using h2
  · intro i j hij hj
    have hn : 0 < l.length := by
      cases l with
      | nil => exact absurd rfl hne
      | cons a t => simp
    have hsw : 0 < (12 - 0.75 : ℚ) / (l.length : ℚ) := by
      apply div_pos (by norm_num)
      exact_mod_cast hn
    have hle : ((i : ℚ) + 1) ≤ (j : ℚ) := by exact_mod_cast hij
    have hmul : ((i : ℚ) + 1) * ((12 - 0.75 : ℚ) / (l.length : ℚ))
        ≤ (j : ℚ) * ((12 - 0.75 : ℚ) / (l.length : ℚ)) :=
      mul_le_mul_of_nonneg_right hle (le_of_lt hsw)
    have hexp : ((i : ℚ) + 1) * ((12 - 0.75 : ℚ) / (l.length : ℚ))
        = (i : ℚ) * ((12 - 0.75 : ℚ) / (l.length : ℚ))
          + (12 - 0.75 : ℚ) / (l.length : ℚ) := by ring
    rw [hexp] at hmul
    linarith
  · rw [hbody]
    exact addStatsAux_length pal _ l 0

/-- Witness for C1: with four stat blocks, block 1 starts at
0.75 + 1 * (11.25 / 4) = 57/16 with box width 11.25/4 - 0.3 = 201/80; block 0
ends strictly before block 1 begins, and 4 blocks give 8 shapes. -/
theorem stats_layout_witness :
    (addStatsContent statsEx corporateBluePalette).get? 2 =
      some (Shape.textbox ⟨57/16, 5/2, 201/80, 3/2⟩
        [{ text := "40", size := some 60, bold := true,
           color := some "003366", align := some PAlign.center }]) ∧
    (0.75 + (0 : ℚ) * ((12 - 0.75) / 4) + ((12 - 0.75) / 4 - 0.3)
        < 0.75 + (1 : ℚ) * ((12 - 0.75) / 4)) ∧
    (addStatsContent statsEx corporateBluePalette).length = 8 := by
  have h := stats_layout statsEx corporateBluePalette statsExList rfl (by decide)
  refine ⟨?_, ?_, ?_⟩
  · have h1 := (h.1 1 ⟨some "40", some "Projekte"⟩ rfl).1
    rw [h1]
    norm_num [statsExList, corporateBluePalette]
  · have h2 := h.2.1 0 1 (by decide) (by decide)
    have h3 : statsExList.length = 4 := rfl
    rw [h3] at h2
    exact_mod_cast h2
  · exact h.2.2.trans (by decide)

/-- C6: a slide whose layout tag is none of the five known presentation
variants is dispatched to the standard (title_content) placement strategy and
produces the same slide content as the layout "title_content"; no failure. -/
theorem unknown_layout_fallback (images : List String) (logo : Option String)
    (c : SlideContent) (pal : Palette)
    (h : c.layout ∉ ["title_content", "two_column", "stats", "image_left", "image_right"]) :
    slideBody images c pal = addStandardContent c pal ∧
    slideBody images c pal = slideBody images { c with layout := "title_content" } pal ∧
    contentSlide images logo pal c
      = contentSlide images logo pal { c with layout := "title_content" } := by
  have h1 : c.layout ≠ "title_content" := fun hx => h (by simp [hx])
  have h2 : c.layout ≠ "two_column" := fun hx => h (by simp [hx])
  have h3 : c.layout ≠ "stats" := fun hx => h (by simp [hx])
  have h4 : c.layout ≠ "image_left" := fun hx => h (by simp [hx])
  have h5 : c.layout ≠ "image_right" := fun hx => h (by simp [hx])
  have hL : slideBody images c pal = addStandardContent c pal := by
    unfold slideBody
    rw [if_neg h1, if_neg h2, if_neg h3, if_neg h4, if_neg h5]
  have hR : slideBody images { c with layout := "title_content" } pal
      = addStandardContent c pal := by
    unfold slideBody
    rw [if_pos rfl]
    rfl
  refine ⟨hL, hL.trans hR.symm, ?_⟩
  unfold contentSlide
  rw [hL, hR]

/-- Witness for C6: the unhandled tag "comparison" renders through the standard
strategy. -/
theorem unknown_layout_witness :
    slideBody [] cmpEx corporateBluePalette
      = addStandardContent cmpEx corporateBluePalette := by
  exact (unknown_layout_fallback [] none cmpEx corporateBluePalette (by decide)).1

/-- A non-empty optional list is truthy. -/
theorem listTruthy_some_ne {α : Type _} (l : List α) (h : l ≠ []) :
    listTruthy (some l) = true := by
  cases l with
  | nil => exact absurd rfl h
  | cons a t => rfl

/-- Reading back the written cell. -/
theorem setCell_same (g : Grid) (r c : ℕ) (x : XCell) : setCell g r c x r c = some x := by
  simp [setCell]

/-- Cell writes do not affect other cells. -/
theorem setCell_other (g : Grid) (r c : ℕ) (x : XCell) (r0 c0 : ℕ)
    (h : ¬(r0 = r ∧ c0 = c)) : setCell g r c x r0 c0 = g r0 c0 := by
  unfold setCell
  by_cases h1 : r0 = r
  · rw [if_pos h1, if_neg (fun hc => h ⟨h1, hc⟩)]
  · rw [if_neg h1]

/-- The header loop writes only into row 1, columns from its start column. -/
theorem writeHeaders_other (fill : String) :
    ∀ (hs : List String) (c0 : ℕ) (g : Grid) (r c : ℕ),
      (r ≠ 1 ∨ c < c0) → writeHeaders fill c0 hs g r c = g r c := by
  intro hs
  induction hs with
  | nil => intro c0 g r c _; rfl
  | cons h0 t ih =>
    intro c0 g r c hcond
    show writeHeaders fill (c0 + 1) t (setCell g 1 c0 (headerCell h0 fill)) r c = g r c
    rw [ih (c0 + 1) _ r c (by omega)]
    apply setCell_other
    rintro ⟨rfl, rfl⟩
    rcases hcond with h | h
    · exact h rfl
    · omega

/-- The header loop puts header j at row 1, column c0 + j. -/
theorem writeHeaders_hit (fill : String) :
    ∀ (hs : List String) (c0 j : ℕ) (g : Grid) (h : String), hs.get? j = some h →
      writeHeaders fill c0 hs g 1 (c0 + j) = some (headerCell h fill) := by
  intro hs
  induction hs with
  | nil => intro c0 j g h hj; simp at hj
  | cons h0 t ih =>
    intro c0 j g h hj
    cases j with
    | zero =>
      have hh : h0 = h := by simpa using hj
      subst hh
      show writeHeaders fill (c0 + 1) t (setCell g 1 c0 (headerCell h0 fill)) 1 (c0 + 0)
        = some (headerCell h0 fill)
      rw [writeHeaders_other fill t (c0 + 1) _ 1 (c0 + 0) (Or.inr (by omega))]
      rw [show c0 + 0 = c0 by omega]
      exact setCell_same g 1 c0 (headerCell h0 fill)
    | succ j =>
      have hj2 : t.get? j = some h := by simpa using hj
      show writeHeaders fill (c0 + 1) t (setCell g 1 c0 (headerCell h0 fill)) 1 (c0 + (j + 1))
        = some (headerCell h fill)
      rw [show c0 + (j + 1) = (c0 + 1) + j by omega]
      exact ih (c0 + 1) j _ h hj2

/-- The row loop writes only into its own row, columns from its start column. -/
theorem writeRow_other (r : ℕ) :
    ∀ (row : List CellValue) (c0 : ℕ) (g : Grid) (r0 c : ℕ),
      (r0 ≠ r ∨ c < c0) → writeRow r c0 row g r0 c = g r0 c := by
  intro row
  induction row with
  | nil => intro c0 g r0 c _; rfl
  | cons v t ih =>
    intro c0 g r0 c hcond
    show writeRow r (c0 + 1) t (setCell g r c0 (dataCell v)) r0 c = g r0 c
    rw [ih (c0 + 1) _ r0 c (by omega)]
    apply setCell_other
    rintro ⟨rfl, rfl⟩
    rcases hcond with h | h
    · exact h rfl
    · omega

/-- The row loop puts value j at column c0 + j of its row. -/
theorem writeRow_hit (r : ℕ) :
    ∀ (row : List CellValue) (c0 j : ℕ) (g : Grid) (v : CellValue),
      row.get? j = some v →
      writeRow r c0 row g r (c0 + j) = some (dataCell v) := by
  intro row
  induction row with
  | nil => intro c0 j g v hj; simp at hj
  | cons v0 t ih =>
    intro c0 j g v hj
    cases j with
    | zero =>
      have hv : v0 = v := by simpa using hj
      subst hv
      show writeRow r (c0 + 1) t (setCell g r c0 (dataCell v0)) r (c0 + 0)
        = some (dataCell v0)
      rw [writeRow_other r t (c0 + 1) _ r (c0 + 0) (Or.inr (by omega))]
      rw [show c0 + 0 = c0 by omega]
      exact setCell_same g r c0 (dataCell v0)
    | succ j =>
      have hj2 : t.get? j = some v := by simpa using hj
      show writeRow r (c0 + 1) t (setCell g r c0 (dataCell v0)) r (c0 + (j + 1))
        = some (dataCell v)
      rw [show c0 + (j + 1) = (c0 + 1) + j by omega]
      exact ih (c0 + 1) j _ v hj2

/-- The data loop writes only into rows from its start row on. -/
theorem writeRows_other_lt :
    ∀ (rows : List (List CellValue)) (r0 : ℕ) (g : Grid) (r c : ℕ),
      r < r0 → writeRows r0 rows g r c = g r c := by
  intro rows
  induction rows with
  | nil => intro r0 g r c _; rfl
  | cons row t ih =>
    intro r0 g r c hlt
    show writeRows (r0 + 1) t (writeRow r0 1 row g) r c = g r c
    rw [ih (r0 + 1) _ r c (by omega)]
    exact writeRow_other r0 row 1 g r c (Or.inl (by omega))

/-- The data loop puts value j of row k at worksheet cell (r0 + k, 1 + j). -/
theorem writeRows_hit :
    ∀ (rows : List (List CellValue)) (r0 k j : ℕ) (row : List CellValue)
      (v : CellValue) (g : Grid),
      rows.get? k = some row → row.get? j = some v →
      writeRows r0 rows g (r0 + k) (1 + j) = some (dataCell v) := by
  intro rows
  induction rows with
  | nil => intro r0 k j row v g hk _; simp at hk
  | cons row0 t ih =>
    intro r0 k j row v g hk hv
    cases k with
    | zero =>
      have hr : row0 = row := by simpa using hk
      subst hr
      show writeRows (r0 + 1) t (writeRow r0 1 row0 g) (r0 + 0) (1 + j)
        = some (dataCell v)
      rw [writeRows_other_lt t (r0 + 1) _ (r0 + 0) (1 + j) (by omega)]
      rw [show r0 + 0 = r0 by omega]
      exact writeRow_hit r0 row0 1 j g v hv
    | succ k =>
      have hk2 : t.get? k = some row := by simpa using hk
      show writeRows (r0 + 1) t (writeRow r0 1 row0 g) (r0 + (k + 1)) (1 + j)
        = some (dataCell v)
      rw [show r0 + (k + 1) = (r0 + 1) + k by omega]
      exact ih (r0 + 1) k j row v _ hk2 hv

/-- Formula assignments do not touch cells outside their key set. -/
theorem applyFormulas_not_mem :
    ∀ (fs : List ((ℕ × ℕ) × String)) (g : Grid) (r c : ℕ),
      (∀ p ∈ fs, p.1 ≠ (r, c)) → applyFormulas fs g r c = g r c := by
  intro fs
  induction fs with
  | nil => intro g r c _; rfl
  | cons p t ih =>
    obtain ⟨⟨r1, c1⟩, f⟩ := p
    intro g r c hmem
    show applyFormulas t (applyFormula g r1 c1 f) r c = g r c
    rw [ih _ r c (fun q hq => hmem q (List.mem_cons_of_mem _ hq))]
    unfold applyFormula
    apply setCell_other
    rintro ⟨rfl, rfl⟩
    exact hmem ((r, c), f) (List.mem_cons_self _ _) rfl

/-- Counterexample to C2 as stated: in a sheet with non-empty headers and
non-empty data whose formula dict targets the data cell at (2, 1), the
composed sheet holds the formula cell there, not the data value int 1. -/
theorem xlsx_formula_overwrites_data :
    (composeSheet "professional" c2CexSheet emptyGrid).1 2 1 =
      some { value := .str "=1+1", font := some { bold := true },
             fill := none, border := true, alignH := some "center", alignV := none } ∧
    (composeSheet "professional" c2CexSheet emptyGrid).1 2 1 ≠
      some (dataCell (.int 1)) := by
  constructor <;> decide

/-- C2 (amended): for every sheet with non-empty headers and non-empty data
whose formulas (if any) target no header or data cell, the composed sheet has
header j in row 1 column j+1 with bold white 11pt font, the style's brand fill,
thin border and center alignment; and data row k value j in row 2+k column j+1
with thin border and center alignment for numeric values, left otherwise. -/
theorem xlsx_sheet_layout (style : String) (cfg : ExcelSheet)
    (hs : List String) (rows : List (List CellValue))
    (hhead : cfg.headers = some hs) (hne : hs ≠ [])
    (hdata : cfg.data = some rows) (dne : rows ≠ [])
    (hform : ∀ p ∈ cfg.formulas.getD [], ¬ writtenRegion hs rows p.1.1 p.1.2) :
    (∀ j h, hs.get? j = some h →
      (composeSheet style cfg emptyGrid).1 1 (j + 1) = some (headerCell h (headerFill style)) ∧
      (headerCell h (headerFill style)).value = .str h ∧
      (headerCell h (headerFill style)).font
        = some { bold := true, color := some "FFFFFF", size := some 11 } ∧
      (headerCell h (headerFill style)).fill = some (headerFill style) ∧
      (headerCell h (headerFill style)).border = true ∧
      (headerCell h (headerFill style)).alignH = some "center") ∧
    (∀ k row, rows.get? k = some row → ∀ j v, row.get? j = some v →
      (composeSheet style cfg emptyGrid).1 (2 + k) (j + 1) = some (dataCell v) ∧
      (dataCell v).value = v ∧ (dataCell v).border = true ∧
      (dataCell v).alignH = some (if isNumeric v then "center" else "left") ∧
      (dataCell v).fill = none) := by
  have hg : (composeSheet style cfg emptyGrid).1 =
      (if listTruthy cfg.formulas then
        applyFormulas (cfg.formulas.getD [])
          (writeRows 2 rows (writeHeaders (headerFill style) 1 hs emptyGrid))
       else writeRows 2 rows (writeHeaders (headerFill style) 1 hs emptyGrid)) := by
    simp only [composeSheet, hhead, hdata, Option.getD_some,
      listTruthy_some_ne hs hne, listTruthy_some_ne rows dne, if_true]
  have hpres : ∀ r c, writtenRegion hs rows r c →
      (composeSheet style cfg emptyGrid).1 r c =
        writeRows 2 rows (writeHeaders (headerFill style) 1 hs emptyGrid) r c := by
    intro r c hrc
    rw [hg]
    by_cases hf : listTruthy cfg.formulas
    · rw [if_pos hf]
      apply applyFormulas_not_mem
      intro p hp hpe
      apply hform p hp
      rw [hpe]
      exact hrc
    · rw [if_neg hf]
  constructor
  · intro j h hj
    have hlt : j < hs.length := by
      by_contra hge
      push_neg at hge
      rw [List.get?_eq_none.mpr hge] at hj
      cases hj
    have hreg : writtenRegion hs rows 1 (j + 1) := Or.inl ⟨rfl, by omega, by omega⟩
    rw [hpres 1 (j + 1) hreg]
    rw [writeRows_other_lt rows 2 _ 1 (j + 1) (by omega)]
    rw [show j + 1 = 1 + j by omega]
    rw [writeHeaders_hit (headerFill style) hs 1 j emptyGrid h hj]
    exact ⟨rfl, rfl, rfl, rfl, rfl, rfl⟩
  · intro k row hk j v hv
    have hlt : j < row.length := by
      by_contra hge
      push_neg at hge
      rw [List.get?_eq_none.mpr hge] at hv
      cases hv
    have hreg : writtenRegion hs rows (2 + k) (j + 1) :=
      Or.inr ⟨k, row, hk, rfl, by omega, by omega⟩
    rw [hpres (2 + k) (j + 1) hreg]
    rw [show j + 1 = 1 + j by omega]
    rw [writeRows_hit rows 2 k j row v _ hk hv]
    exact ⟨rfl, rfl, rfl, rfl, rfl⟩

/-- Witness for C2 (amended), the spec's round-trip instance: headers A,B in
row 1, data rows 1,2 and 3,4 in rows 2-3, numeric cells centered. -/
theorem xlsx_sheet_layout_witness :
    (composeSheet "professional" c2Sheet emptyGrid).1 1 1 =
      some (headerCell "A" "003366") ∧
    (composeSheet "professional" c2Sheet emptyGrid).1 2 2 =
      some (dataCell (.int 2)) ∧
    (composeSheet "professional" c2Sheet emptyGrid).1 3 1 =
      some (dataCell (.int 3)) := by
  have h := xlsx_sheet_layout "professional" c2Sheet ["A", "B"]
    [[.int 1, .int 2], [.int 3, .int 4]] rfl (by decide) rfl (by decide)
    (by intro p hp; simp [c2Sheet] at hp)
  exact ⟨(h.1 0 "A" rfl).1, (h.2 0 [.int 1, .int 2] rfl 1 (.int 2) rfl).1,
    (h.2 1 [.int 3, .int 4] rfl 0 (.int 3) rfl).1⟩

/-- How the chart loop reads its config list. -/
theorem sheetCharts_eq (x : ExcelSheet) :
    sheetCharts x = (x.charts.getD []).filterMap
      (fun cc => (createChart cc).map (fun ch => (ch, cc.position))) := by
  cases hx : x.charts <;> simp [sheetCharts, hx]

/-- C3: a chart spec whose data_range does not split into exactly two
colon-separated endpoints yields no chart; the sheet drops exactly that chart
(other charts survive) and its header, data and formula cells are computed
independently of the chart list, so the sheet still renders. -/
theorem chart_skip (style : String) (cfg : ExcelSheet) (g0 : Grid)
    (cc : ChartConfig) (hbad : (splitRange cc.data_range).length ≠ 2) :
    createChart cc = none ∧
    (∀ pre post, cfg.charts = some (pre ++ cc :: post) →
      (composeSheet style cfg g0).2 =
        (composeSheet style { cfg with charts := some (pre ++ post) } g0).2) ∧
    (∀ cs, (composeSheet style { cfg with charts := cs } g0).1
        = (composeSheet style cfg g0).1) := by
  have hnone : createChart cc = none := by
    unfold createChart
    rw [if_pos hbad]
  refine ⟨hnone, ?_, ?_⟩
  · intro pre post hcs
    show sheetCharts cfg = sheetCharts { cfg with charts := some (pre ++ post) }
    rw [sheetCharts_eq, sheetCharts_eq, hcs]
    simp [List.filterMap_append, hnone]
  · intro cs
    rfl

/-- Witness for C3: the colon-free range "A1" yields no chart; the sheet keeps
its good chart, and its cells are what they are without any charts. -/
theorem chart_skip_witness :
    createChart c3BadChart = none ∧
    (composeSheet "professional" c3Sheet emptyGrid).2 =
      (composeSheet "professional" { c3Sheet with charts := some [c3GoodChart] }
        emptyGrid).2 ∧
    (composeSheet "professional" c3Sheet emptyGrid).2 =
      [(⟨ChartType.line, "Umsatz", 10⟩, "E2")] ∧
    (composeSheet "professional" { c3Sheet with charts := none } emptyGrid).1
      = (composeSheet "professional" c3Sheet emptyGrid).1 := by
  have h := chart_skip "professional" c3Sheet emptyGrid c3BadChart (by decide)
  refine ⟨h.1, h.2.1 [c3GoodChart] [] rfl, by decide, h.2.2 none⟩

/-- C7: a content unit providing only its minimal required field composes
without failing into the minimal skeleton.  A title-only slide (standard
layout) gets no body shape at all — no content box, bullets, stats, columns,
or image — only the background, accent bar and title of every content slide;
a heading-only page section yields exactly the heading flowable — no
paragraph body, table, image, spacer or page break. -/
theorem minimal_content_minimal_skeleton (images imgs2 : List String)
    (c : SlideContent) (pal pal2 : Palette) (s : PDFSection)
    (hc1 : c.content = none) (hc2 : c.bullet_points = none)
    (hc3 : c.layout = "title_content") (hs1 : s.type = "heading") :
    addStandardContent c pal = [] ∧
    slideBody images c pal = [] ∧
    contentSlide images none pal c =
      [Shape.rect ⟨0, 0, SLIDE_W, SLIDE_H⟩ "FFFFFF",
       Shape.rect ⟨0, 0, SLIDE_W, 0.1⟩ pal.primary,
       Shape.textbox ⟨0.75, 0.5, 11.8, 0.9⟩
         [{ text := c.title, size := some 36, bold := true,
            color := some pal.text_dark }]] ∧
    composePdfSection imgs2 pal2 s =
      [Flowable.para (s.content.getD "")
        (if s.level = 1 then .heading1 pal2.primary else .heading2 pal2.secondary)] := by
  have h1 : addStandardContent c pal = [] := by
    unfold addStandardContent
    rw [hc1, hc2]
    rfl
  have h2 : slideBody images c pal = addStandardContent c pal := by
    unfold slideBody
    rw [if_pos hc3]
  refine ⟨h1, h2.trans h1, ?_, ?_⟩
  · unfold contentSlide
    rw [h2.trans h1]
    rfl
  · unfold composePdfSection
    rw [if_pos hs1]

/-- Witness for C7: the concrete title-only slide adds no body shape, and the
concrete heading-only section yields exactly one level-1 heading flowable. -/
theorem minimal_content_witness :
    slideBody [] titleOnlySlide corporateBluePalette = [] ∧
    composePdfSection [] corporateBluePalette headingOnlySection =
      [Flowable.para "Abschnitt" (PdfStyle.heading1 "003366")] := by
  have h := minimal_content_minimal_skeleton [] [] titleOnlySlide
    corporateBluePalette corporateBluePalette headingOnlySection rfl rfl rfl rfl
  refine ⟨h.2.1, ?_⟩
  rw [h.2.2.2]
  rfl

/-- C8: for each of the four output kinds, when serialization of the composed
document fails, the request returns that single failure and the generated-file
store is unchanged — no partial output is persisted. -/
theorem generation_failure_no_partial_file
    (spp : List (List Shape) → Except String String)
    (sdoc : DocxDoc → Except String String)
    (sxl : List (String × (Grid × List (XChart × String))) → Except String String)
    (spdf : List Flowable → Except String String)
    (fname now : String) (logos images : List String) (store : FileStore)
    (preq : PresentationRequest) (dreq : WordDocumentRequest)
    (xreq : ExcelRequest) (freq : PDFRequest) (e : String) :
    (spp (composePptx now logos images preq) = .error e →
      handlePptx spp fname now logos images store preq = (store, .error e)) ∧
    (sdoc (composeDocx logos images now dreq) = .error e →
      handleDocx sdoc fname now logos images store dreq = (store, .error e)) ∧
    (sxl (composeXlsx xreq) = .error e →
      handleXlsx sxl fname store xreq = (store, .error e)) ∧
    (spdf (composePdf logos images now freq) = .error e →
      handlePdf spdf fname now logos images store freq = (store, .error e)) := by
  refine ⟨?_, ?_, ?_, ?_⟩ <;> intro h <;>
    simp [handlePptx, handleDocx, handleXlsx, handlePdf, h]

/-- Witness for C8: a serializer failing with "boom" on the concrete requests
leaves an empty store empty for all four kinds. -/
theorem generation_failure_witness :
    handlePptx (fun _ => .error "boom") "f" "Oktober 2026" [] [] [] pptxReqEx
      = ([], .error "boom") ∧
    handleDocx (fun _ => .error "boom") "f" "Oktober 2026" [] [] [] docxReqEx
      = ([], .error "boom") ∧
    handleXlsx (fun _ => .error "boom") "f" [] xlsxReqEx = ([], .error "boom") ∧
    handlePdf (fun _ => .error "boom") "f" "Oktober 2026" [] [] [] pdfReqEx
      = ([], .error "boom") := by
  have h := generation_failure_no_partial_file
    (fun _ => Except.error "boom") (fun _ => Except.error "boom")
    (fun _ => Except.error "boom") (fun _ => Except.error "boom")
    "f" "Oktober 2026" [] [] [] pptxReqEx docxReqEx xlsxReqEx pdfReqEx "boom"
  exact ⟨h.1 rfl, h.2.1 rfl, h.2.2.1 rfl, h.2.2.2 rfl⟩

/-- Every digit character produced from a decimal digit is a digit. -/
theorem digitChar_mod_isDigit (n : ℕ) : (Nat.digitChar (n % 10)).isDigit = true := by
  have h : n % 10 < 10 := Nat.mod_lt _ (by omega)
  have h10 : ∀ m, m < 10 → (Nat.digitChar m).isDigit = true := by decide
  exact h10 _ h

/-- Counterexample to C9 as stated: docx and pdf files share the prefix
"document", and the xlsx prefix is the user-chosen request filename — here
"presentation", identical to the pptx kind prefix although the produced file
is an xlsx — so the prefix does not identify the output kind. -/
theorem filename_prefix_not_kind :
    docxFilename "20260101_120000" "abcdef01" = "document_20260101_120000_abcdef01.docx" ∧
    pdfFilename "20260101_120000" "abcdef01" = "document_20260101_120000_abcdef01.pdf" ∧
    xlsxFilename "presentation" "20260101_120000" "abcdef01"
      = "presentation_20260101_120000_abcdef01.xlsx" ∧
    pptxFilename "20260101_120000" "abcdef01"
      = "presentation_20260101_120000_abcdef01.pptx" := by
  refine ⟨?_, ?_, ?_, ?_⟩ <;> decide

/-- C9 (amended): every generated filename has the form
name_timestamp_random8hex.ext where the timestamp is YYYYMMDD_HHMMSS (15
characters: 8 digits, an underscore, 6 digits), the suffix is the first 8
characters of the 32-character hex digest, and the extension matches the
output kind; the name part is "presentation" for pptx, "document" for both
docx and pdf, and the user-supplied filename stripped of ".xlsx" for xlsx —
it does not in general identify the output kind. -/
theorem filename_format (t : Timestamp) (hex32 : String) (f : String)
    (hlen : hex32.data.length = 32) (hhex : ∀ ch ∈ hex32.data, ch ∈ hexDigits) :
    pptxFilename (formatTimestamp t) (shortId hex32)
      = "presentation" ++ "_" ++ formatTimestamp t ++ "_" ++ shortId hex32 ++ "." ++ "pptx" ∧
    docxFilename (formatTimestamp t) (shortId hex32)
      = "document" ++ "_" ++ formatTimestamp t ++ "_" ++ shortId hex32 ++ "." ++ "docx" ∧
    pdfFilename (formatTimestamp t) (shortId hex32)
      = "document" ++ "_" ++ formatTimestamp t ++ "_" ++ shortId hex32 ++ "." ++ "pdf" ∧
    xlsxFilename f (formatTimestamp t) (shortId hex32)
      = pyReplaceDrop f ".xlsx" ++ "_" ++ formatTimestamp t ++ "_" ++ shortId hex32
        ++ "." ++ "xlsx" ∧
    (formatTimestamp t).length = 15 ∧
    (formatTimestamp t).data.get? 8 = some '_' ∧
    (∀ i, i < 15 → i ≠ 8 →
      ∃ ch, (formatTimestamp t).data.get? i = some ch ∧ ch.isDigit = true) ∧
    (shortId hex32).data.length = 8 ∧
    (∀ ch ∈ (shortId hex32).data, ch ∈ hexDigits) := by
  have hdata : (formatTimestamp t).data =
      [Nat.digitChar (t.year / 1000 % 10), Nat.digitChar (t.year / 100 % 10),
       Nat.digitChar (t.year / 10 % 10), Nat.digitChar (t.year % 10),
       Nat.digitChar (t.month / 10 % 10), Nat.digitChar (t.month % 10),
       Nat.digitChar (t.day / 10 % 10), Nat.digitChar (t.day % 10),
       '_',
       Nat.digitChar (t.hour / 10 % 10), Nat.digitChar (t.hour % 10),
       Nat.digitChar (t.minute / 10 % 10), Nat.digitChar (t.minute % 10),
       Nat.digitChar (t.second / 10 % 10), Nat.digitChar (t.second % 10)] := rfl
  refine ⟨rfl, rfl, rfl, rfl, ?_, ?_, ?_, ?_, ?_⟩
  · show (formatTimestamp t).data.length = 15
    rw [hdata]
    rfl
  · rw [hdata]
    rfl
  · intro i h1 h2
    rw [hdata]
    interval_cases i
    all_goals first
      | exact absurd rfl h2
      | exact ⟨_, rfl, digitChar_mod_isDigit _⟩
  · show (hex32.data.take 8).length = 8
    rw [List.length_take, hlen]
    rfl
  · intro ch hch
    exact hhex ch (List.take_subset 8 hex32.data hch)

/-- Witness for C9 (amended): a concrete timestamp and hex digest. -/
theorem filename_format_witness :
    pptxFilename (formatTimestamp ⟨2026, 10, 12, 9, 5, 3⟩)
        (shortId "0123456789abcdef0123456789abcdef")
      = "presentation_20261012_090503_01234567.pptx" ∧
    (formatTimestamp ⟨2026, 10, 12, 9, 5, 3⟩).length = 15 ∧
    (shortId "0123456789abcdef0123456789abcdef").data.length = 8 := by
  have h := filename_format ⟨2026, 10, 12, 9, 5, 3⟩
    "0123456789abcdef0123456789abcdef" "bericht" (by decide) (by decide)
  refine ⟨h.1.trans (by decide), h.2.2.2.2.1, h.2.2.2.2.2.2.2.1⟩

end FCS
